import Mathlib

/-!
Verification of the outbound webhook delivery subsystem of the
business-card-extractor backend (`webhookService.js`, `WebhookConfig` model and
the `PUT /api/config/webhook` route), shallowly embedded in Lean 4.

Machine integers are modelled as `Nat` with explicit reduction mod `2^32`
where the source performs 32-bit arithmetic (inside SHA-256); byte strings are
`List Nat` with every entry `< 256`; JavaScript exceptions are `Except String`.
-/

namespace Webhook

/-! ### 32-bit word helpers (Nat with explicit mod 2^32) -/

def w32 (n : Nat) : Nat := n % 4294967296

/-- Right rotation of a 32-bit word. -/
def rotr (x n : Nat) : Nat := w32 ((x >>> n) ||| (x <<< (32 - n)))

def smallSigma0 (x : Nat) : Nat := (rotr x 7) ^^^ (rotr x 18) ^^^ (x >>> 3)

def smallSigma1 (x : Nat) : Nat := (rotr x 17) ^^^ (rotr x 19) ^^^ (x >>> 10)

def bigSigma0 (x : Nat) : Nat := (rotr x 2) ^^^ (rotr x 13) ^^^ (rotr x 22)

def bigSigma1 (x : Nat) : Nat := (rotr x 6) ^^^ (rotr x 11) ^^^ (rotr x 25)

def ch (x y z : Nat) : Nat := (x &&& y) ^^^ ((x ^^^ 4294967295) &&& z)

def maj (x y z : Nat) : Nat := (x &&& y) ^^^ (x &&& z) ^^^ (y &&& z)

/-! ### SHA-256 (the `sha256` algorithm selected by `crypto.createHmac('sha256', …)`) -/

def sha256K : List Nat :=
  [1116352408, 1899447441, 3049323471, 3921009573, 961987163, 1508970993,
   2453635748, 2870763221, 3624381080, 310598401, 607225278, 1426881987,
   1925078388, 2162078206, 2614888103, 3248222580, 3835390401, 4022224774,
   264347078, 604807628, 770255983, 1249150122, 1555081692, 1996064986,
   2554220882, 2821834349, 2952996808, 3210313671, 3336571891, 3584528711,
   113926993, 338241895, 666307205, 773529912, 1294757372, 1396182291,
   1695183700, 1986661051, 2177026350, 2456956037, 2730485921, 2820302411,
   3259730800, 3345764771, 3516065817, 3600352804, 4094571909, 275423344,
   430227734, 506948616, 659060556, 883997877, 958139571, 1322822218,
   1537002063, 1747873779, 1955562222, 2024104815, 2227730452, 2361852424,
   2428436474, 2756734187, 3204031479, 3329325298]

structure Hash8 where
  a : Nat
  b : Nat
  c : Nat
  d : Nat
  e : Nat
  f : Nat
  g : Nat
  h : Nat

def sha256Init : Hash8 :=
  ⟨1779033703, 3144134277, 1013904242, 2773480762, 1359893119, 2600822924, 528734635, 1541459225⟩

/-- Extend a 16-word block to the 64-word message schedule. -/
def scheduleGo (ws : List Nat) : Nat → List Nat
  | 0 => ws
  | n+1 =>
    let i := ws.length
    let w := w32 (smallSigma1 (ws.getD (i-2) 0) + ws.getD (i-7) 0 +
                  smallSigma0 (ws.getD (i-15) 0) + ws.getD (i-16) 0)
    scheduleGo (ws ++ [w]) n

def sha256Schedule (block : List Nat) : List Nat := scheduleGo block 48

def sha256Round (s : Hash8) (kw : Nat × Nat) : Hash8 :=
  let t1 := w32 (s.h + bigSigma1 s.e + ch s.e s.f s.g + kw.1 + kw.2)
  let t2 := w32 (bigSigma0 s.a + maj s.a s.b s.c)
  ⟨w32 (t1 + t2), s.a, s.b, s.c, w32 (s.d + t1), s.e, s.f, s.g⟩

def sha256Compress (st : Hash8) (block : List Nat) : Hash8 :=
  let ws := sha256Schedule block
  let r := (sha256K.zip ws).foldl sha256Round st
  ⟨w32 (st.a + r.a), w32 (st.b + r.b), w32 (st.c + r.c), w32 (st.d + r.d),
   w32 (st.e + r.e), w32 (st.f + r.f), w32 (st.g + r.g), w32 (st.h + r.h)⟩

/-- Big-endian 8-byte encoding of the message bit length. -/
def be64 (n : Nat) : List Nat :=
  [n >>> 56 % 256, n >>> 48 % 256, n >>> 40 % 256, n >>> 32 % 256,
   n >>> 24 % 256, n >>> 16 % 256, n >>> 8 % 256, n % 256]

/-- Big-endian 4-byte encoding of a 32-bit word. -/
def word32Bytes (w : Nat) : List Nat :=
  [w >>> 24 % 256, w >>> 16 % 256, w >>> 8 % 256, w % 256]

/-- Merkle–Damgård padding: 0x80, zeros, then the 64-bit bit length. -/
def sha256Pad (msg : List Nat) : List Nat :=
  msg ++ [0x80] ++ List.replicate ((119 - msg.length % 64) % 64) 0 ++ be64 (8 * msg.length)

/-- Split a byte list into 64-byte blocks (structural recursion on a fuel
bound so that the definition reduces inside the kernel). -/
def chunks64Go : Nat → List Nat → List (List Nat)
  | 0, _ => []
  | _, [] => []
  | fuel+1, b :: bs => ((b :: bs).take 64) :: chunks64Go fuel ((b :: bs).drop 64)

def chunks64 (l : List Nat) : List (List Nat) := chunks64Go l.length l

/-- Combine each group of 4 bytes into one big-endian 32-bit word. -/
def bytesToWords : List Nat → List Nat
  | b1 :: b2 :: b3 :: b4 :: rest =>
    w32 ((b1 <<< 24) + (b2 <<< 16) + (b3 <<< 8) + b4) :: bytesToWords rest
  | _ => []

def digestBytes (s : Hash8) : List Nat :=
  word32Bytes s.a ++ word32Bytes s.b ++ word32Bytes s.c ++ word32Bytes s.d ++
  word32Bytes s.e ++ word32Bytes s.f ++ word32Bytes s.g ++ word32Bytes s.h

def sha256 (msg : List Nat) : List Nat :=
  digestBytes ((chunks64 (sha256Pad msg)).foldl (fun st blk => sha256Compress st (bytesToWords blk)) sha256Init)

/-- HMAC-SHA256, as `crypto.createHmac('sha256', secret).update(m).digest()`. -/
def hmacSha256 (key msg : List Nat) : List Nat :=
  let k0 := if 64 < key.length then sha256 key else key
  let kp := k0 ++ List.replicate (64 - k0.length) 0
  sha256 ((kp.map (fun b => b ^^^ 0x5c)) ++ sha256 ((kp.map (fun b => b ^^^ 0x36)) ++ msg))

/-! ### Hex encoding (`.digest('hex')`) and UTF-8 (`Buffer.from(string)`) -/

def hexChar (n : Nat) : Char := if n < 10 then Char.ofNat (48 + n) else Char.ofNat (87 + n)

def byteToHex (b : Nat) : List Char := [hexChar (b / 16), hexChar (b % 16)]

def bytesToHexString (bs : List Nat) : String := String.mk (bs.map byteToHex).flatten

/-- UTF-8 encoding of one character, as Node's `Buffer.from` performs it. -/
def encodeChar (c : Char) : List Nat :=
  let n := c.toNat
  if n < 0x80 then [n]
  else if n < 0x800 then [0xC0 ||| (n >>> 6), 0x80 ||| (n &&& 0x3F)]
  else if n < 0x10000 then
    [0xE0 ||| (n >>> 12), 0x80 ||| ((n >>> 6) &&& 0x3F), 0x80 ||| (n &&& 0x3F)]
  else
    [0xF0 ||| (n >>> 18), 0x80 ||| ((n >>> 12) &&& 0x3F),
     0x80 ||| ((n >>> 6) &&& 0x3F), 0x80 ||| (n &&& 0x3F)]

def utf8Encode (s : String) : List Nat := (s.data.map encodeChar).flatten

/-! ### Data model (`src/backend/src/models/WebhookConfig.js`) -/

/-- The `events` sub-document of a `WebhookConfig`. -/
structure Events where
  cardExtracted : Bool
  userAdded : Bool
  configChanged : Bool
deriving DecidableEq

/-- Dynamic property access `webhookConfig.events[eventType]`: unknown keys
read as `undefined`, which is falsy. -/
def Events.get (e : Events) (eventType : String) : Bool :=
  if eventType = "cardExtracted" then e.cardExtracted
  else if eventType = "userAdded" then e.userAdded
  else if eventType = "configChanged" then e.configChanged
  else false

structure RetryConfig where
  maxRetries : Nat
  retryDelay : Nat
  backoffMultiplier : Rat
deriving DecidableEq

structure Header where
  name : String
  value : String
deriving DecidableEq

structure Stats where
  totalSent : Nat
  successCount : Nat
  failureCount : Nat
  averageResponseTime : Int
deriving DecidableEq

structure WebhookConfig where
  id : String
  organization : String
  url : String
  secret : String
  isActive : Bool
  events : Events
  retryConfig : RetryConfig
  headers : List Header
  stats : Stats
deriving DecidableEq

/-- The event envelope built by `sendWebhook`. The `data` field is carried in
its already-serialized JSON form (`dataJson`), since the subsystem never
inspects it. -/
structure Payload where
  event : String
  timestamp : String
  organizationId : String
  dataJson : String
deriving DecidableEq

/-! ### JSON serialization (`JSON.stringify`) of the envelope -/

/-- `JSON.stringify` escaping of one character inside a string literal. -/
def escapeJsonChar (c : Char) : List Char :=
  if c = '"' then ['\\', '"']
  else if c = '\\' then ['\\', '\\']
  else if c = '\x08' then ['\\', 'b']
  else if c = '\x09' then ['\\', 't']
  else if c = '\x0a' then ['\\', 'n']
  else if c = '\x0c' then ['\\', 'f']
  else if c = '\x0d' then ['\\', 'r']
  else if c.toNat < 32 then
    '\\' :: 'u' :: '0' :: '0' :: [hexChar (c.toNat / 16), hexChar (c.toNat % 16)]
  else [c]

def jsonString (s : String) : String :=
  "\"" ++ String.mk (s.data.map escapeJsonChar).flatten ++ "\""

/-- `JSON.stringify(payload)` for the envelope
`\x7bevent, timestamp, organizationId, data\x7d` in insertion order. -/
def stringifyPayload (p : Payload) : String :=
  "\x7b\"event\":" ++ jsonString p.event ++
  ",\"timestamp\":" ++ jsonString p.timestamp ++
  ",\"organizationId\":" ++ jsonString p.organizationId ++
  ",\"data\":" ++ p.dataJson ++ "\x7d"

/-! ### Signer (`generateSignature` / `verifySignature`) -/

/-- `WebhookService.generateSignature`: HMAC-SHA256 of the JSON serialization
of the payload, hex encoded and prefixed with `sha256=`. -/
def generateSignature (payload : Payload) (secret : String) : String :=
  let payloadString := stringifyPayload payload
  "sha256=" ++ bytesToHexString (hmacSha256 (utf8Encode secret) (utf8Encode payloadString))

/-- `crypto.timingSafeEqual` on two byte buffers: throws a `TypeError` when
the byte lengths differ, otherwise reports byte-wise equality. -/
def timingSafeEqual (a b : List Nat) : Except String Bool :=
  if a.length = b.length then Except.ok (decide (a = b))
  else Except.error "Input buffers must have the same byte length"

/-- `WebhookService.verifySignature`: compares `Buffer.from(signature)` with
`Buffer.from(expectedSignature)` via `crypto.timingSafeEqual`. -/
def verifySignature (payload : Payload) (signature : String) (secret : String) :
    Except String Bool :=
  timingSafeEqual (utf8Encode signature) (utf8Encode (generateSignature payload secret))

/-! ### Delivery attempt executor (`deliverWebhook`) -/

structure HttpRequest where
  url : String
  body : String
  headers : List Header
deriving DecidableEq

/-- JavaScript object update `headers[name] = value`: replaces the value of an
existing key, otherwise appends the new key. -/
def setHeader (hs : List Header) (n v : String) : List Header :=
  if hs.any (fun hd => hd.name == n) then
    hs.map (fun hd => if hd.name == n then ⟨n, v⟩ else hd)
  else hs ++ [⟨n, v⟩]

def getHeader (hs : List Header) (n : String) : Option String :=
  (hs.find? (fun hd => hd.name == n)).map Header.value

/-- Outcome of the outbound `axios.post`, as seen by `deliverWebhook`'s code:
a response with some status, a timeout (`ECONNABORTED`), a refused connection
(`ECONNREFUSED`), or some other transport error. -/
inductive HttpResult where
  | status (code : Nat) (statusText : String)
  | timeout
  | connRefused
  | netError (message : String)
deriving DecidableEq

def classifyError : HttpResult → String
  | .status code text => "HTTP " ++ toString code ++ ": " ++ text
  | .timeout => "Request timeout"
  | .connRefused => "Connection refused"
  | .netError m => m

/-- `validateStatus: (status) => status >= 200 && status < 300` — every other
`HttpResult` makes `axios.post` reject. -/
def isDeliveryFailure : HttpResult → Bool
  | .status code _ => !(decide (200 ≤ code ∧ code < 300))
  | _ => true

structure DeliverResult where
  success : Bool
  status : Nat
  responseTime : Nat
  attempt : Nat
deriving DecidableEq

/-- The headers and body of the POST issued by `deliverWebhook`: the six
default headers, then the tenant's custom `headers` assigned one by one
(overriding same-named defaults). -/
def buildRequest (config : WebhookConfig) (payload : Payload) (attempt : Nat) : HttpRequest :=
  let base : List Header :=
    [⟨"Content-Type", "application/json"⟩,
     ⟨"User-Agent", "BusinessCardExtractor/1.0"⟩,
     ⟨"X-Signature-256", generateSignature payload config.secret⟩,
     ⟨"X-Event-Type", payload.event⟩,
     ⟨"X-Timestamp", payload.timestamp⟩,
     ⟨"X-Attempt", toString attempt⟩]
  { url := config.url,
    body := stringifyPayload payload,
    headers := config.headers.foldl (fun hs hd => setHeader hs hd.name hd.value) base }

/-- `WebhookService.deliverWebhook`: issues the POST described by
`buildRequest config payload attempt` and classifies the outcome; a non-2xx
status, timeout or connection failure is rethrown as
`Webhook delivery failed (attempt N): …`. `r` is the transport outcome of the
POST and `rt` the measured response time. -/
def deliverWebhook (config : WebhookConfig) (payload : Payload) (attempt : Nat)
    (r : HttpResult) (rt : Nat) : Except String DeliverResult :=
  match r with
  | .status code _ =>
    if 200 ≤ code ∧ code < 300 then Except.ok ⟨true, code, rt, attempt⟩
    else
      Except.error ("Webhook delivery failed (attempt " ++ toString attempt ++ "): " ++ classifyError r)
  | _ =>
    Except.error ("Webhook delivery failed (attempt " ++ toString attempt ++ "): " ++ classifyError r)

/-! ### Dispatcher (`sendWebhook`) -/

/-- The data of the BullMQ job added by `sendWebhook`
(`\x7bwebhookConfigId, payload, attempt: 1\x7d`). -/
structure EnqueuedJob where
  webhookConfigId : String
  payload : Payload
  attempt : Nat
deriving DecidableEq

/-- The per-job options passed to `webhookQueue.add`: an attempt ceiling and
the built-in `exponential` backoff seeded with `retryConfig.retryDelay`. -/
structure JobOptions where
  attempts : Nat
  backoffType : String
  backoffDelay : Nat
deriving DecidableEq

inductive SendOutcome where
  /-- `return null` — webhook not configured or event type not enabled. -/
  | skipped
  | queued (message : String)
  | sentDirectly (message : String) (result : DeliverResult)
deriving DecidableEq

deriving instance DecidableEq for Except

structure SendResult where
  outcome : Except String SendOutcome
  /-- HTTP requests issued synchronously by the dispatcher itself. -/
  requests : List HttpRequest
  /-- Jobs handed to the delivery queue. -/
  enqueued : List (EnqueuedJob × JobOptions)
deriving DecidableEq

/-- The process environment and external world visible to one
`sendWebhook` call. -/
structure DispatchEnv where
  redisEnabled : Bool
  /-- Contents of the `webhookconfigs` collection. -/
  store : List WebhookConfig
  /-- `new Date().toISOString()` at dispatch time. -/
  now : String
  /-- Result of the synchronous (degraded-mode) HTTP attempt, if one happens. -/
  http : HttpResult
  responseTime : Nat
deriving DecidableEq

/-- `WebhookConfig.findOne(\x7borganization, isActive: true\x7d)`. -/
def findOneActive (store : List WebhookConfig) (org : String) : Option WebhookConfig :=
  store.find? (fun c => c.organization == org && c.isActive)

/-- `WebhookService.sendWebhook(organizationId, eventType, data)`:
skips when no active config or the event type is disabled; in queued mode
adds a job with `attempt: 1`, `attempts: maxRetries + 1` and exponential
backoff seeded with `retryDelay`; in degraded (no-Redis) mode delivers
synchronously and rethrows any failure as `Webhook delivery failed: …`. -/
def sendWebhook (env : DispatchEnv) (organizationId eventType dataJson : String) : SendResult :=
  match findOneActive env.store organizationId with
  | none => ⟨Except.ok SendOutcome.skipped, [], []⟩
  | some config =>
    if config.events.get eventType = false then ⟨Except.ok SendOutcome.skipped, [], []⟩
    else
      let payload : Payload := ⟨eventType, env.now, organizationId, dataJson⟩
      if env.redisEnabled then
        ⟨Except.ok (SendOutcome.queued "Webhook queued for delivery"), [],
         [(⟨config.id, payload, 1⟩,
           ⟨config.retryConfig.maxRetries + 1, "exponential", config.retryConfig.retryDelay⟩)]⟩
      else
        let req := buildRequest config payload 1
        match deliverWebhook config payload 1 env.http env.responseTime with
        | Except.ok r => ⟨Except.ok (SendOutcome.sentDirectly "Webhook sent directly" r), [req], []⟩
        | Except.error e => ⟨Except.error ("Webhook delivery failed: " ++ e), [req], []⟩

/-! ### Stats aggregator (`updateWebhookStats`) -/

/-- `WebhookService.updateWebhookStats`: always `$inc`'s `stats.totalSent`;
on success also `stats.successCount` and (for a positive response time) the
running mean `averageResponseTime`; on failure `stats.failureCount`. -/
def updateWebhookStats (s : Stats) (success : Bool) (responseTime : Nat) : Stats :=
  let base : Stats := { s with totalSent := s.totalSent + 1 }
  if success then
    let s1 : Stats := { base with successCount := s.successCount + 1 }
    if 0 < responseTime then
      let currentAvg : Rat := s.averageResponseTime
      let totalSuccess : Nat := s.successCount + 1
      let newAvg : Rat := (currentAvg * ((totalSuccess : Rat) - 1) + responseTime) / totalSuccess
      { s1 with averageResponseTime := round newAvg }
    else s1
  else { base with failureCount := s.failureCount + 1 }

/-! ### Worker pool and retry loop (`initializeWorker` + BullMQ) -/

/-- Modelled from BullMQ's documented built-in backoff: with
`backoff: \x7btype: 'exponential', delay\x7d`, the retry scheduled after the
`attemptsMade`-th failed attempt waits `delay * 2 ^ (attemptsMade - 1)`
milliseconds. The multiplier is fixed at 2 by the library; job options carry
no other knob. -/
def bullmqBackoffDelay (delay attemptsMade : Nat) : Nat := delay * 2 ^ (attemptsMade - 1)

/-- Job lifecycle states; the spec's `Delivered` is BullMQ's `completed` set
and its `Exhausted` is the `failed` set. `waiting` is a job whose oracle of
attempt outcomes ran out. Each constructor records how many attempts were
made. -/
inductive JobState where
  | waiting (attemptsMade : Nat)
  | completed (attemptsMade : Nat)
  | failed (attemptsMade : Nat)
deriving DecidableEq

structure RunResult where
  /-- One entry per delivery attempt: the request issued and whether the
  attempt succeeded. -/
  trace : List (HttpRequest × Bool)
  /-- Backoff delays of the retries scheduled between attempts. -/
  delays : List Nat
  stats : Stats
  state : JobState
deriving DecidableEq

/-- The worker callback of `initializeWorker` run under BullMQ's documented
retry loop: each attempt replays the job's original `data` (payload and
`attempt` field included); on success `updateWebhookStats(id, true, rt)` is
called and the job completes; on failure `updateWebhookStats(id, false)` is
called and the error is rethrown, so BullMQ either schedules a retry
(`attemptsMade < opts.attempts`, with exponential backoff) or moves the job
to the failed set. The `oracle` lists the HTTP outcome and response time of
each attempt; the config is assumed to stay present and active. -/
def workerProcessJob (config : WebhookConfig) (job : EnqueuedJob) (opts : JobOptions)
    (oracle : List (HttpResult × Nat)) (attemptsMade : Nat) (stats : Stats) : RunResult :=
  match oracle with
  | [] => ⟨[], [], stats, JobState.waiting attemptsMade⟩
  | (r, rt) :: rest =>
    let req := buildRequest config job.payload job.attempt
    match deliverWebhook config job.payload job.attempt r rt with
    | Except.ok dr =>
      ⟨[(req, true)], [], updateWebhookStats stats true dr.responseTime, JobState.completed (attemptsMade + 1)⟩
    | Except.error _ =>
      let stats1 := updateWebhookStats stats false 0
      if attemptsMade + 1 < opts.attempts then
        let r2 := workerProcessJob config job opts rest (attemptsMade + 1) stats1
        ⟨(req, false) :: r2.trace, bullmqBackoffDelay opts.backoffDelay (attemptsMade + 1) :: r2.delays,
         r2.stats, r2.state⟩
      else ⟨[(req, false)], [], stats1, JobState.failed (attemptsMade + 1)⟩

/-- The retry-delay formula claimed by the spec (§4.4):
`initialDelayMs * backoffMultiplier^(attemptNumber-1)`; kept separate from the
code-derived `bullmqBackoffDelay` for comparison. -/
def specRetryDelay (rc : RetryConfig) (attemptNumber : Nat) : Rat :=
  (rc.retryDelay : Rat) * rc.backoffMultiplier ^ (attemptNumber - 1)

/-! ### Configuration update route (`PUT /api/config/webhook`) -/

/-- JavaScript `v || d` for an optional numeric field: `undefined` and `0`
are falsy and select the default. -/
def jsOrNat (v : Option Nat) (d : Nat) : Nat :=
  match v with
  | none => d
  | some n => if n = 0 then d else n

def jsOrRat (v : Option Rat) (d : Rat) : Rat :=
  match v with
  | none => d
  | some q => if q = 0 then d else q

/-- The `retryConfig` object of a `PUT /webhook` request body (fields absent
when not sent). -/
structure RetryConfigBody where
  maxRetries : Option Nat
  retryDelay : Option Nat
  backoffMultiplier : Option Rat
deriving DecidableEq

/-- The `retryConfig` stored by the `PUT /webhook` route
(`src/backend/src/routes/config.js`):
`maxRetries: retryConfig.maxRetries || 3`, etc. -/
def putWebhookRetryConfig (body : RetryConfigBody) : RetryConfig :=
  ⟨jsOrNat body.maxRetries 3, jsOrNat body.retryDelay 1000, jsOrRat body.backoffMultiplier 2⟩

/-! ### Concrete sample data used by witnesses and counterexamples -/

def demoStats : Stats := ⟨0, 0, 0, 0⟩

def demoConfig : WebhookConfig :=
  ⟨"cfg1", "org1", "https://x.test/hook", "ssssssssssssssss", true,
   ⟨true, false, false⟩, ⟨2, 1000, 2⟩, [], demoStats⟩

def demoPayload : Payload := ⟨"cardExtracted", "2026-01-01T00:00:00.000Z", "org1", "\x7b\x7d"⟩

def demoJob : EnqueuedJob := ⟨"cfg1", demoPayload, 1⟩

/-- The job options `sendWebhook` attaches for `demoConfig`
(`attempts = maxRetries + 1 = 3`). -/
def demoOpts : JobOptions := ⟨3, "exponential", 1000⟩

def fail500 : HttpResult := HttpResult.status 500 "Internal Server Error"

def ok200 : HttpResult := HttpResult.status 200 "OK"

def emptyRequest : HttpRequest := ⟨"", "", []⟩

/-- A degraded-mode (no Redis) environment whose single HTTP attempt fails
with status 500. -/
def demoEnvDegraded : DispatchEnv := ⟨false, [demoConfig], "2026-01-01T00:00:00.000Z", fail500, 5⟩

/-- A queued-mode environment. -/
def demoEnvQueued : DispatchEnv := ⟨true, [demoConfig], "2026-01-01T00:00:00.000Z", fail500, 5⟩

/-- `demoConfig` with `backoffMultiplier = 1`. -/
def demoConfigMult1 : WebhookConfig := { demoConfig with retryConfig := ⟨2, 1000, 1⟩ }

end Webhook

namespace Webhook

/-! ### Helper lemmas: byte lengths of digests and signatures -/

theorem digestBytes_length (s : Hash8) : (digestBytes s).length = 32 := by
  simp [digestBytes, word32Bytes]

theorem sha256_length (m : List Nat) : (sha256 m).length = 32 := by
  unfold sha256; exact digestBytes_length _

theorem hmacSha256_length (k m : List Nat) : (hmacSha256 k m).length = 32 := by
  unfold hmacSha256; exact sha256_length _

theorem word32Bytes_lt (w : Nat) : ∀ b ∈ word32Bytes w, b < 256 := by
  intro b hb
  simp only [word32Bytes, List.mem_cons, List.not_mem_nil, or_false] at hb
  rcases hb with h | h | h | h <;> omega

theorem sha256_mem_lt (m : List Nat) : ∀ b ∈ sha256 m, b < 256 := by
  intro b hb
  unfold sha256 digestBytes at hb
  simp only [List.mem_append] at hb
  rcases hb with (((((((h | h) | h) | h) | h) | h) | h) | h) <;> exact word32Bytes_lt _ b h

theorem hexChar_toNat_lt (n : Nat) (h : n < 16) : (hexChar n).toNat < 128 := by
  interval_cases n <;> decide

theorem byteToHex_ascii (b : Nat) (hb : b < 256) : ∀ c ∈ byteToHex b, c.toNat < 128 := by
  intro c hc
  unfold byteToHex at hc
  simp only [List.mem_cons, List.not_mem_nil, or_false] at hc
  rcases hc with h | h <;> subst h
  · exact hexChar_toNat_lt _ (by omega)
  · exact hexChar_toNat_lt _ (Nat.mod_lt _ (by omega))

/-- An ASCII character encodes to a single UTF-8 byte. -/
theorem encodeChar_ascii (c : Char) (h : c.toNat < 128) : encodeChar c = [c.toNat] := by
  unfold encodeChar
  rw [if_pos h]

theorem utf8_length_of_ascii (cs : List Char) (h : ∀ c ∈ cs, c.toNat < 128) :
    ((cs.map encodeChar).flatten).length = cs.length := by
  induction cs with
  | nil => rfl
  | cons c cs ih =>
    simp only [List.map_cons, List.flatten_cons, List.length_append, List.length_cons]
    rw [encodeChar_ascii c (h c (List.mem_cons_self c cs)), ih (fun x hx => h x (List.mem_cons_of_mem c hx))]
    simp [Nat.add_comm]

theorem hexChars_length (bs : List Nat) : ((bs.map byteToHex).flatten).length = 2 * bs.length := by
  induction bs with
  | nil => rfl
  | cons b bs ih =>
    simp only [List.map_cons, List.flatten_cons, List.length_append, List.length_cons, ih, byteToHex]
    simp; omega

theorem utf8Encode_append (a b : String) :
    utf8Encode (a ++ b) = utf8Encode a ++ utf8Encode b := by
  unfold utf8Encode
  rw [String.data_append, List.map_append, List.flatten_append]

theorem utf8Encode_mk (cs : List Char) : utf8Encode (String.mk cs) = (cs.map encodeChar).flatten := rfl

/-- `Buffer.from(bytesToHexString bs).length = 2 * bs.length` for byte input. -/
theorem utf8_bytesToHexString_length (bs : List Nat) (hb : ∀ b ∈ bs, b < 256) :
    (utf8Encode (bytesToHexString bs)).length = 2 * bs.length := by
  unfold bytesToHexString
  rw [utf8Encode_mk, utf8_length_of_ascii, hexChars_length]
  intro c hc
  rcases List.mem_flatten.mp hc with ⟨l, hl, hcl⟩
  rcases List.mem_map.mp hl with ⟨b, hbmem, rfl⟩
  exact byteToHex_ascii b (hb b hbmem) c hcl

/-- The expected signature `sha256=<64 hex>` always occupies 71 bytes. -/
theorem generateSignature_utf8_length (p : Payload) (secret : String) :
    (utf8Encode (generateSignature p secret)).length = 71 := by
  unfold generateSignature
  rw [utf8Encode_append, List.length_append]
  have h1 : (utf8Encode "sha256=").length = 7 := by decide
  have h2 : (utf8Encode (bytesToHexString (hmacSha256 (utf8Encode secret) (utf8Encode (stringifyPayload p))))).length = 64 := by
    rw [utf8_bytesToHexString_length _ (fun b hb => sha256_mem_lt _ b (by
      have := hb; unfold hmacSha256 at this; exact this))]
    rw [hmacSha256_length]
  omega

/-! ### Helper lemmas: JavaScript object semantics of the headers map -/

theorem find_map_replace_self (n v : String) (hs : List Header) :
    hs.any (fun hd => hd.name == n) = true →
    getHeader (hs.map (fun hd => if hd.name == n then ⟨n, v⟩ else hd)) n = some v := by
  induction hs with
  | nil => intro h; simp at h
  | cons hd tl ih =>
    intro hany
    unfold getHeader
    simp only [List.map_cons]
    by_cases h : (hd.name == n) = true
    · rw [List.find?_cons_of_pos _ (by simp [h])]
      simp [h]
    · have h' : (hd.name == n) = false := by simpa using h
      have hf : (if (hd.name == n) = true then (⟨n, v⟩ : Header) else hd) = hd := if_neg h
      rw [hf, List.find?_cons_of_neg _ (by simp [h'])]
      have htl : tl.any (fun hd => hd.name == n) = true := by
        simpa [List.any_cons, h'] using hany
      exact ih htl

theorem find_append_self (n v : String) (hs : List Header)
    (hnone : hs.any (fun hd => hd.name == n) = false) :
    getHeader (hs ++ [⟨n, v⟩]) n = some v := by
  unfold getHeader
  rw [List.find?_append]
  have h1 : hs.find? (fun hd => hd.name == n) = none := by
    rw [List.find?_eq_none]
    intro x hx hpx
    rw [List.any_eq_false] at hnone
    exact hnone x hx hpx
  rw [h1]
  simp

theorem getHeader_setHeader_self (hs : List Header) (n v : String) :
    getHeader (setHeader hs n v) n = some v := by
  unfold setHeader
  split
  · rename_i hany; exact find_map_replace_self n v hs hany
  · rename_i hany; exact find_append_self n v hs (by simpa using hany)

theorem find_map_replace_ne (m n v : String) (hmn : m ≠ n) (hs : List Header) :
    getHeader (hs.map (fun hd => if hd.name == m then ⟨m, v⟩ else hd)) n = getHeader hs n := by
  induction hs with
  | nil => rfl
  | cons hd tl ih =>
    unfold getHeader at ih ⊢
    simp only [List.map_cons]
    by_cases h : (hd.name == m) = true
    · have hm : hd.name = m := by simpa using h
      have hdn : (hd.name == n) = false := by simp [hm, hmn]
      rw [List.find?_cons_of_neg _ (by simp [h, hmn]), List.find?_cons_of_neg _ (by simp [hdn])]
      exact ih
    · have hf : (if (hd.name == m) = true then (⟨m, v⟩ : Header) else hd) = hd := if_neg h
      rw [hf]
      cases hpn : (hd.name == n) with
      | true => simp only [List.find?_cons, hpn]
      | false => simp only [List.find?_cons, hpn]; exact ih

theorem find_append_ne (m n v : String) (hmn : m ≠ n) (hs : List Header) :
    getHeader (hs ++ [⟨m, v⟩]) n = getHeader hs n := by
  unfold getHeader
  rw [List.find?_append]
  have h2 : List.find? (fun hd : Header => hd.name == n) [⟨m, v⟩] = none := by
    simp [hmn]
  rw [h2]
  cases List.find? (fun hd : Header => hd.name == n) hs <;> rfl

theorem getHeader_setHeader_ne (hs : List Header) (m n v : String) (hmn : m ≠ n) :
    getHeader (setHeader hs m v) n = getHeader hs n := by
  unfold setHeader
  split
  · exact find_map_replace_ne m n v hmn hs
  · exact find_append_ne m n v hmn hs

theorem getHeader_applyHeaders_ne (l base : List Header) (n : String)
    (h : ∀ hd ∈ l, hd.name ≠ n) :
    getHeader (l.foldl (fun hs hd => setHeader hs hd.name hd.value) base) n = getHeader base n := by
  induction l generalizing base with
  | nil => rfl
  | cons hd tl ih =>
    simp only [List.foldl_cons]
    rw [ih _ (fun x hx => h x (List.mem_cons_of_mem hd hx))]
    exact getHeader_setHeader_ne base hd.name n hd.value (h hd (List.mem_cons_self hd tl))

theorem getHeader_applyHeaders_last (hs base : List Header) (n v : String) :
    getHeader ((hs ++ [(⟨n, v⟩ : Header)]).foldl (fun a hd => setHeader a hd.name hd.value) base) n = some v := by
  rw [List.foldl_append]
  simp only [List.foldl_cons, List.foldl_nil]
  exact getHeader_setHeader_self _ n v

/-! ### Helper lemmas: stats aggregator -/

theorem updateWebhookStats_totalSent (s : Stats) (b : Bool) (rt : Nat) :
    (updateWebhookStats s b rt).totalSent = s.totalSent + 1 := by
  unfold updateWebhookStats
  split <;> try rfl
  split <;> rfl

theorem updateWebhookStats_success_counts (s : Stats) (rt : Nat) :
    (updateWebhookStats s true rt).successCount = s.successCount + 1 ∧
    (updateWebhookStats s true rt).failureCount = s.failureCount := by
  unfold updateWebhookStats
  rw [if_pos rfl]
  split <;> exact ⟨rfl, rfl⟩

theorem updateWebhookStats_failure_counts (s : Stats) (rt : Nat) :
    (updateWebhookStats s false rt).successCount = s.successCount ∧
    (updateWebhookStats s false rt).failureCount = s.failureCount + 1 := ⟨rfl, rfl⟩

/-! ### Helper lemmas: the worker retry loop -/

theorem getD_mem_of_lt {α : Type} (l : List α) (i : Nat) (d : α) (h : i < l.length) :
    l.getD i d ∈ l := by
  rw [List.getD_eq_getElem l d h]
  exact List.getElem_mem h

/-- A transport failure makes `deliverWebhook` throw. -/
theorem deliverWebhook_error_of_failure (config : WebhookConfig) (payload : Payload)
    (attempt : Nat) (r : HttpResult) (rt : Nat) (hr : isDeliveryFailure r = true) :
    ∃ msg, deliverWebhook config payload attempt r rt = Except.error msg := by
  cases r with
  | status code text =>
    have h1 : code < 200 ∨ 300 ≤ code := by simpa [isDeliveryFailure] using hr
    have hc : ¬ (200 ≤ code ∧ code < 300) := by omega
    simp only [deliverWebhook, if_neg hc]
    exact ⟨_, rfl⟩
  | timeout => exact ⟨_, rfl⟩
  | connRefused => exact ⟨_, rfl⟩
  | netError m => exact ⟨_, rfl⟩

/-- Every request a job run sends is the one built from the job's immutable
`payload` and stored `attempt` field. -/
theorem workerProcessJob_trace_request (config : WebhookConfig) (job : EnqueuedJob)
    (opts : JobOptions) (oracle : List (HttpResult × Nat)) (k : Nat) (st : Stats) :
    ∀ e ∈ (workerProcessJob config job opts oracle k st).trace,
      e.1 = buildRequest config job.payload job.attempt := by
  induction oracle generalizing k st with
  | nil => intro e he; simp [workerProcessJob] at he
  | cons o rest ih =>
    obtain ⟨r, rt⟩ := o
    intro e he
    simp only [workerProcessJob] at he
    cases hdel : deliverWebhook config job.payload job.attempt r rt with
    | ok dr =>
      rw [hdel] at he
      simp only [List.mem_singleton] at he
      rw [he]
    | error msg =>
      rw [hdel] at he
      by_cases hlt : k + 1 < opts.attempts
      · rw [if_pos hlt] at he
        rcases List.mem_cons.mp he with h | h
        · rw [h]
        · exact ih (k + 1) _ e h
      · rw [if_neg hlt] at he
        simp only [List.mem_singleton] at he
        rw [he]

/-- Stats deltas of a job run: one `totalSent` increment per attempt, one
`failureCount` increment per failed attempt (terminal or not), one
`successCount` increment per successful attempt. -/
theorem workerProcessJob_stats (config : WebhookConfig) (job : EnqueuedJob)
    (opts : JobOptions) (oracle : List (HttpResult × Nat)) (k : Nat) (st : Stats) :
    (workerProcessJob config job opts oracle k st).stats.totalSent
      = st.totalSent + (workerProcessJob config job opts oracle k st).trace.length
    ∧ (workerProcessJob config job opts oracle k st).stats.failureCount
      = st.failureCount + ((workerProcessJob config job opts oracle k st).trace.filter (fun e => !e.2)).length
    ∧ (workerProcessJob config job opts oracle k st).stats.successCount
      = st.successCount + ((workerProcessJob config job opts oracle k st).trace.filter (fun e => e.2)).length := by
  induction oracle generalizing k st with
  | nil => simp [workerProcessJob]
  | cons o rest ih =>
    obtain ⟨r, rt⟩ := o
    simp only [workerProcessJob]
    cases hdel : deliverWebhook config job.payload job.attempt r rt with
    | ok dr =>
      simp only [List.length_singleton, List.filter_singleton]
      refine ⟨updateWebhookStats_totalSent st true dr.responseTime, ?_, ?_⟩
      · simpa using (updateWebhookStats_success_counts st dr.responseTime).2
      · simpa using (updateWebhookStats_success_counts st dr.responseTime).1
    | error msg =>
      by_cases hlt : k + 1 < opts.attempts
      · rw [if_pos hlt]
        obtain ⟨h1, h2, h3⟩ := ih (k + 1) (updateWebhookStats st false 0)
        refine ⟨?_, ?_, ?_⟩
        · simp only [List.length_cons, h1, updateWebhookStats_totalSent]; omega
        · simp only [List.filter_cons, h2, (updateWebhookStats_failure_counts st 0).2]
          simp; omega
        · simp only [List.filter_cons, h3, (updateWebhookStats_failure_counts st 0).1]
          simp
      · rw [if_neg hlt]
        refine ⟨updateWebhookStats_totalSent st false 0, ?_, ?_⟩
        · simpa using (updateWebhookStats_failure_counts st 0).2
        · simpa using (updateWebhookStats_failure_counts st 0).1

/-- A run that starts with `k` attempts already made performs at most
`opts.attempts - k` further attempts. -/
theorem workerProcessJob_trace_le (config : WebhookConfig) (job : EnqueuedJob)
    (opts : JobOptions) (oracle : List (HttpResult × Nat)) (k : Nat) (st : Stats)
    (hk : k < opts.attempts) :
    (workerProcessJob config job opts oracle k st).trace.length ≤ opts.attempts - k := by
  induction oracle generalizing k st with
  | nil => simp [workerProcessJob]
  | cons o rest ih =>
    obtain ⟨r, rt⟩ := o
    simp only [workerProcessJob]
    cases hdel : deliverWebhook config job.payload job.attempt r rt with
    | ok dr => simp only [List.length_singleton]; omega
    | error msg =>
      by_cases hlt : k + 1 < opts.attempts
      · rw [if_pos hlt]
        have := ih (k + 1) (updateWebhookStats st false 0) hlt
        simp only [List.length_cons]
        omega
      · rw [if_neg hlt]
        simp only [List.length_singleton]
        omega

/-- When every available outcome is a failure and enough outcomes remain, the
run fails exactly at the attempt ceiling, ends in the failed (exhausted) set,
and the final failure schedules no retry. -/
theorem workerProcessJob_all_failures (config : WebhookConfig) (job : EnqueuedJob)
    (opts : JobOptions) (oracle : List (HttpResult × Nat)) (k : Nat) (st : Stats)
    (hfail : ∀ e ∈ oracle, isDeliveryFailure e.1 = true)
    (hlen : opts.attempts - k ≤ oracle.length) (hk : k < opts.attempts) :
    (workerProcessJob config job opts oracle k st).state = JobState.failed opts.attempts
    ∧ (workerProcessJob config job opts oracle k st).trace.length = opts.attempts - k
    ∧ (workerProcessJob config job opts oracle k st).delays.length = opts.attempts - k - 1 := by
  induction oracle generalizing k st with
  | nil => simp at hlen; omega
  | cons o rest ih =>
    obtain ⟨r, rt⟩ := o
    have hrfail : isDeliveryFailure r = true := hfail (r, rt) (List.mem_cons_self _ _)
    obtain ⟨msg, hdel⟩ :=
      deliverWebhook_error_of_failure config job.payload job.attempt r rt hrfail
    simp only [workerProcessJob, hdel]
    by_cases hlt : k + 1 < opts.attempts
    · rw [if_pos hlt]
      obtain ⟨h1, h2, h3⟩ := ih (k + 1) (updateWebhookStats st false 0)
        (fun e he => hfail e (List.mem_cons_of_mem _ he))
        (by simp at hlen ⊢; omega) hlt
      refine ⟨h1, ?_, ?_⟩
      · simp only [List.length_cons, h2]; omega
      · simp only [List.length_cons, h3]; omega
    · rw [if_neg hlt]
      have : k + 1 = opts.attempts := by omega
      exact ⟨by rw [this], by simp; omega, by simp; omega⟩

/-- The `i`-th scheduled retry delay of a run starting at `attemptsMade = k`
is `backoffDelay * 2 ^ (k + i)`. -/
theorem workerProcessJob_delays_getD (config : WebhookConfig) (job : EnqueuedJob)
    (opts : JobOptions) (oracle : List (HttpResult × Nat)) (k : Nat) (st : Stats) (i : Nat)
    (hi : i < (workerProcessJob config job opts oracle k st).delays.length) :
    (workerProcessJob config job opts oracle k st).delays.getD i 0
      = opts.backoffDelay * 2 ^ (k + i) := by
  induction oracle generalizing k st i with
  | nil => simp [workerProcessJob] at hi
  | cons o rest ih =>
    obtain ⟨r, rt⟩ := o
    simp only [workerProcessJob] at hi ⊢
    cases hdel : deliverWebhook config job.payload job.attempt r rt with
    | ok dr => rw [hdel] at hi; simp at hi
    | error msg =>
      rw [hdel] at hi
      by_cases hlt : k + 1 < opts.attempts
      · rw [if_pos hlt] at hi ⊢
        cases i with
        | zero =>
          simp [bullmqBackoffDelay]
        | succ j =>
          simp only [List.getD_cons_succ]
          have := ih (k + 1) (updateWebhookStats st false 0) j (by simpa using hi)
          rw [this]
          ring_nf
      · rw [if_neg hlt] at hi
        simp at hi

/-! ### Sanity checks of the crypto embedding against published test vectors -/

set_option maxRecDepth 40000

theorem sha256_abc_vector :
    bytesToHexString (sha256 (utf8Encode "abc"))
      = "ba7816bf8f01cfea414140de5dae2223b00361a396177a9cb410ff61f20015ad" := by decide

theorem hmacSha256_rfc4231_case2 :
    bytesToHexString (hmacSha256 (utf8Encode "Jefe") (utf8Encode "what do ya want for nothing?"))
      = "5bdcc146bf60754e6a042426089575c75a003f089d2739839dec58b964ec3843" := by decide

/-! ### The claims -/

/-- C1 counterexample: a job that fails once and then succeeds updates the
stats at every attempt, not once per job — `totalSent` grows by 2 (not 1), and
the intermediate non-final retry failure increments `failureCount`. -/
theorem c1_counterexample :
    (workerProcessJob demoConfig demoJob demoOpts [(fail500, 3), (ok200, 4)] 0 demoStats).stats.totalSent = 2
    ∧ (workerProcessJob demoConfig demoJob demoOpts [(fail500, 3), (ok200, 4)] 0 demoStats).stats.failureCount = 1
    ∧ (workerProcessJob demoConfig demoJob demoOpts [(fail500, 3), (ok200, 4)] 0 demoStats).state
        = JobState.completed 2 := by
  refine ⟨by decide, by decide, by decide⟩

/-- C1 (amended): the tenant's stats are updated exactly once per delivery
ATTEMPT, not once per job: `totalSent` grows by the number of attempts the
job took, `failureCount` by the number of failed attempts (intermediate retry
failures included), `successCount` by the number of successful attempts. -/
theorem c1_stats_once_per_attempt (config : WebhookConfig) (job : EnqueuedJob)
    (opts : JobOptions) (oracle : List (HttpResult × Nat)) (k : Nat) (st : Stats) :
    (workerProcessJob config job opts oracle k st).stats.totalSent
      = st.totalSent + (workerProcessJob config job opts oracle k st).trace.length
    ∧ (workerProcessJob config job opts oracle k st).stats.failureCount
      = st.failureCount + ((workerProcessJob config job opts oracle k st).trace.filter (fun e => !e.2)).length
    ∧ (workerProcessJob config job opts oracle k st).stats.successCount
      = st.successCount + ((workerProcessJob config job opts oracle k st).trace.filter (fun e => e.2)).length :=
  workerProcessJob_stats config job opts oracle k st

/-- C2 counterexample: in degraded (no-queue) mode, an HTTP 500 on the
synchronous delivery attempt is rethrown by `sendWebhook` to the caller that
raised the event, instead of being contained. -/
theorem c2_counterexample :
    (sendWebhook demoEnvDegraded "org1" "cardExtracted" "\x7b\x7d").outcome
      = Except.error
          "Webhook delivery failed: Webhook delivery failed (attempt 1): HTTP 500: Internal Server Error" := by
  decide

/-- C2 (amended): in queued mode `sendWebhook` never propagates a delivery
failure (it returns a success after enqueueing, issuing no HTTP request
itself); in degraded mode a failing synchronous delivery is rethrown to the
caller as `Webhook delivery failed: …`. -/
theorem c2_failure_propagation (env : DispatchEnv) (orgId eventType dataJson : String) :
    (env.redisEnabled = true →
      (sendWebhook env orgId eventType dataJson).outcome.isOk = true
      ∧ (sendWebhook env orgId eventType dataJson).requests = [])
    ∧ (env.redisEnabled = false →
      ∀ c, findOneActive env.store orgId = some c →
        c.events.get eventType = true →
        isDeliveryFailure env.http = true →
        ∃ msg, (sendWebhook env orgId eventType dataJson).outcome = Except.error msg) := by
  constructor
  · intro hq
    unfold sendWebhook
    cases hf : findOneActive env.store orgId with
    | none => exact ⟨rfl, rfl⟩
    | some config =>
      dsimp only
      by_cases hev : config.events.get eventType = false
      · rw [if_pos hev]; exact ⟨rfl, rfl⟩
      · rw [if_neg hev, hq]
        rw [if_pos rfl]
        exact ⟨rfl, rfl⟩
  · intro hq c hf hev hfail
    unfold sendWebhook
    rw [hf]
    dsimp only
    have hev' : ¬ (c.events.get eventType = false) := by rw [hev]; simp
    rw [if_neg hev', hq]
    rw [if_neg (by simp)]
    obtain ⟨msg, hdel⟩ := deliverWebhook_error_of_failure c ⟨eventType, env.now, orgId, dataJson⟩ 1 env.http env.responseTime hfail
    rw [hdel]
    exact ⟨_, rfl⟩

/-- Witness for C2 (amended), queued half at a concrete environment. -/
theorem c2_failure_propagation_witness :
    (sendWebhook demoEnvQueued "org1" "cardExtracted" "\x7b\x7d").outcome.isOk = true :=
  ((c2_failure_propagation demoEnvQueued "org1" "cardExtracted" "\x7b\x7d").1 rfl).1

/-- C3 counterexample: with `backoffMultiplier = 1` the claimed formula
`initialDelayMs * backoffMultiplier^(k-1)` predicts every delay to be
1000 ms, but the scheduled delays of an all-failing 3-attempt job are
`[1000, 2000]` — the second delay is 2000 ≠ 1000. -/
theorem c3_counterexample :
    (workerProcessJob demoConfigMult1 demoJob demoOpts
        [(fail500, 1), (fail500, 1), (fail500, 1)] 0 demoStats).delays = [1000, 2000]
    ∧ specRetryDelay demoConfigMult1.retryConfig 2 = 1000
    ∧ (2000 : Nat) ≠ 1000 := by
  refine ⟨by decide, ?_, by decide⟩
  show (1000 : Rat) * (1 : Rat) ^ (2 - 1) = 1000
  norm_num

/-- C3 (amended): the delay scheduled before attempt `k+1` is
`retryDelay * 2^(k-1)` — BullMQ's built-in exponential strategy with a fixed
factor of 2; `backoffMultiplier` is never passed to the queue and has no
effect. Delays are strictly increasing whenever `retryDelay > 0`. (Index `i`
is 0-based: `delays[i]` is the delay after the `(i+1)`-th failed attempt.) -/
theorem c3_backoff_formula (config : WebhookConfig) (job : EnqueuedJob)
    (oracle : List (HttpResult × Nat)) (st : Stats) (i : Nat)
    (hi : i < (workerProcessJob config job
        ⟨config.retryConfig.maxRetries + 1, "exponential", config.retryConfig.retryDelay⟩
        oracle 0 st).delays.length) :
    (workerProcessJob config job
        ⟨config.retryConfig.maxRetries + 1, "exponential", config.retryConfig.retryDelay⟩
        oracle 0 st).delays.getD i 0 = config.retryConfig.retryDelay * 2 ^ i
    ∧ (0 < config.retryConfig.retryDelay →
       i + 1 < (workerProcessJob config job
          ⟨config.retryConfig.maxRetries + 1, "exponential", config.retryConfig.retryDelay⟩
          oracle 0 st).delays.length →
       (workerProcessJob config job
          ⟨config.retryConfig.maxRetries + 1, "exponential", config.retryConfig.retryDelay⟩
          oracle 0 st).delays.getD i 0
         < (workerProcessJob config job
          ⟨config.retryConfig.maxRetries + 1, "exponential", config.retryConfig.retryDelay⟩
          oracle 0 st).delays.getD (i + 1) 0) := by
  constructor
  · have := workerProcessJob_delays_getD config job
      ⟨config.retryConfig.maxRetries + 1, "exponential", config.retryConfig.retryDelay⟩
      oracle 0 st i hi
    simpa using this
  · intro hd hi1
    have h1 := workerProcessJob_delays_getD config job
      ⟨config.retryConfig.maxRetries + 1, "exponential", config.retryConfig.retryDelay⟩
      oracle 0 st i hi
    have h2 := workerProcessJob_delays_getD config job
      ⟨config.retryConfig.maxRetries + 1, "exponential", config.retryConfig.retryDelay⟩
      oracle 0 st (i + 1) hi1
    simp only [Nat.zero_add] at h1 h2
    rw [h1, h2]
    have hpow : 2 ^ i < 2 ^ (i + 1) := Nat.pow_lt_pow_right (by omega) (Nat.lt_succ_self i)
    exact mul_lt_mul_of_pos_left hpow hd

/-- Witness for C3 (amended): second scheduled delay of the demo config is
`1000 * 2^1 = 2000`. -/
theorem c3_backoff_formula_witness :
    (workerProcessJob demoConfig demoJob ⟨3, "exponential", 1000⟩
        [(fail500, 1), (fail500, 1), (fail500, 1)] 0 demoStats).delays.getD 1 0 = 1000 * 2 ^ 1 :=
  (c3_backoff_formula demoConfig demoJob [(fail500, 1), (fail500, 1), (fail500, 1)] demoStats 1
    (by decide)).1

/-- C4: a job is attempted at most `maxRetries + 1` times; if every attempt
fails, the run makes exactly `maxRetries + 1` attempts, ends in the terminal
failed (`Exhausted`) set, and the final failure schedules no further retry
(only `maxRetries` backoff delays are ever scheduled). -/
theorem c4_exhaustion_bound (config : WebhookConfig) (job : EnqueuedJob)
    (oracle : List (HttpResult × Nat)) (st : Stats) :
    (workerProcessJob config job
        ⟨config.retryConfig.maxRetries + 1, "exponential", config.retryConfig.retryDelay⟩
        oracle 0 st).trace.length ≤ config.retryConfig.maxRetries + 1
    ∧ ((∀ e ∈ oracle, isDeliveryFailure e.1 = true) →
       config.retryConfig.maxRetries + 1 ≤ oracle.length →
       (workerProcessJob config job
          ⟨config.retryConfig.maxRetries + 1, "exponential", config.retryConfig.retryDelay⟩
          oracle 0 st).state = JobState.failed (config.retryConfig.maxRetries + 1)
       ∧ (workerProcessJob config job
          ⟨config.retryConfig.maxRetries + 1, "exponential", config.retryConfig.retryDelay⟩
          oracle 0 st).trace.length = config.retryConfig.maxRetries + 1
       ∧ (workerProcessJob config job
          ⟨config.retryConfig.maxRetries + 1, "exponential", config.retryConfig.retryDelay⟩
          oracle 0 st).delays.length = config.retryConfig.maxRetries) := by
  constructor
  · have := workerProcessJob_trace_le config job
      ⟨config.retryConfig.maxRetries + 1, "exponential", config.retryConfig.retryDelay⟩
      oracle 0 st (Nat.succ_pos _)
    simpa using this
  · intro hfail hlen
    have := workerProcessJob_all_failures config job
      ⟨config.retryConfig.maxRetries + 1, "exponential", config.retryConfig.retryDelay⟩
      oracle 0 st hfail
      (by show config.retryConfig.maxRetries + 1 - 0 ≤ oracle.length; omega) (Nat.succ_pos _)
    refine ⟨this.1, by simpa using this.2.1, by
      have h3 := this.2.2
      simpa using h3⟩

/-- Witness for C4 at the demo config (`maxRetries = 2`): three straight
failures exhaust the job. -/
theorem c4_exhaustion_bound_witness :
    (workerProcessJob demoConfig demoJob ⟨3, "exponential", 1000⟩
        [(fail500, 1), (fail500, 1), (fail500, 1)] 0 demoStats).state = JobState.failed 3 :=
  ((c4_exhaustion_bound demoConfig demoJob [(fail500, 1), (fail500, 1), (fail500, 1)] demoStats).2
    (by decide) (by decide)).1

/-- C5: when no active configuration exists for the tenant (none stored, or
stored but inactive) or the event type is not enabled, `sendWebhook` returns
the no-op success (`null`, modelled `skipped`) — not an error — and issues
zero HTTP requests and enqueues nothing, in queued and degraded mode alike. -/
theorem c5_skipped_no_op (env : DispatchEnv) (orgId eventType dataJson : String)
    (h : ∀ c ∈ env.store, c.organization = orgId → c.isActive = true →
         c.events.get eventType = false) :
    sendWebhook env orgId eventType dataJson
      = { outcome := Except.ok SendOutcome.skipped, requests := [], enqueued := [] } := by
  unfold sendWebhook
  cases hf : findOneActive env.store orgId with
  | none => rfl
  | some config =>
    have hf' : env.store.find? (fun c => c.organization == orgId && c.isActive) = some config := hf
    have hmem : config ∈ env.store := List.mem_of_find?_eq_some hf'
    have hpred := List.find?_some hf'
    simp only [Bool.and_eq_true, beq_iff_eq] at hpred
    have hev : config.events.get eventType = false := h config hmem hpred.1 hpred.2
    dsimp only
    rw [if_pos hev]

/-- Witness for C5: an inactive stored config leads to the skipped no-op. -/
theorem c5_skipped_no_op_witness :
    sendWebhook ⟨true, [{ demoConfig with isActive := false }], "2026-01-01T00:00:00.000Z", fail500, 5⟩
        "org1" "cardExtracted" "\x7b\x7d"
      = { outcome := Except.ok SendOutcome.skipped, requests := [], enqueued := [] } :=
  c5_skipped_no_op _ "org1" "cardExtracted" "\x7b\x7d" (by decide)

/-- C6: across all attempts of a queued job the transmitted request is built
from the job's immutable payload (fixed at dispatch time) — hence every
attempt carries a byte-identical body, the same `X-Timestamp` and the same
`X-Signature-256` value; nothing is rebuilt or re-signed with new content on
retries. -/
theorem c6_payload_immutable (config : WebhookConfig) (job : EnqueuedJob) (opts : JobOptions)
    (oracle : List (HttpResult × Nat)) (k : Nat) (st : Stats) :
    (∀ e ∈ (workerProcessJob config job opts oracle k st).trace,
        e.1 = buildRequest config job.payload job.attempt)
    ∧ (∀ e ∈ (workerProcessJob config job opts oracle k st).trace,
       ∀ e₂ ∈ (workerProcessJob config job opts oracle k st).trace,
        e.1.body = e₂.1.body
        ∧ getHeader e.1.headers "X-Signature-256" = getHeader e₂.1.headers "X-Signature-256"
        ∧ getHeader e.1.headers "X-Timestamp" = getHeader e₂.1.headers "X-Timestamp") := by
  refine ⟨workerProcessJob_trace_request config job opts oracle k st, ?_⟩
  intro e he e₂ he₂
  rw [workerProcessJob_trace_request config job opts oracle k st e he,
      workerProcessJob_trace_request config job opts oracle k st e₂ he₂]
  exact ⟨rfl, rfl, rfl⟩

/-- Witness for C6: in a two-attempt run the second attempt's request equals
the one built from the original payload. -/
theorem c6_payload_immutable_witness :
    ((workerProcessJob demoConfig demoJob demoOpts [(fail500, 1), (ok200, 4)] 0 demoStats).trace.getD 1
        (emptyRequest, false)).1
      = buildRequest demoConfig demoPayload 1 :=
  (c6_payload_immutable demoConfig demoJob demoOpts [(fail500, 1), (ok200, 4)] 0 demoStats).1 _
    (getD_mem_of_lt _ 1 (emptyRequest, false) (by decide))

/-- C7 counterexample: on the second delivery attempt of a queued job (current
attempt number 2) the request carries `X-Attempt: 1`, because the worker reads
the attempt number from the job's replayed data, which is enqueued once as 1
and never updated. -/
theorem c7_counterexample :
    getHeader (((workerProcessJob demoConfig demoJob demoOpts [(fail500, 1), (fail500, 1)] 0
          demoStats).trace.getD 1 (emptyRequest, false)).1.headers) "X-Attempt" = some "1"
    ∧ some "1" ≠ some "2" := by
  refine ⟨by decide, by decide⟩

/-- C7 (amended): every attempt's POST carries Content-Type, the fixed
User-Agent, `X-Signature-256`, `X-Event-Type`, `X-Timestamp` and `X-Attempt`;
custom headers are applied after the defaults, so a same-named custom header
overrides (the last write wins); but `X-Attempt` equals the attempt number
stored in the job's data — `1` for every queued attempt — not the current
attempt number. -/
theorem c7_headers (config : WebhookConfig) (p : Payload) (a : Nat)
    (job : EnqueuedJob) (opts : JobOptions) (oracle : List (HttpResult × Nat)) (k : Nat)
    (st : Stats) (hs : List Header) (n v : String) :
    (config.headers = [] →
      (buildRequest config p a).headers =
        [⟨"Content-Type", "application/json"⟩,
         ⟨"User-Agent", "BusinessCardExtractor/1.0"⟩,
         ⟨"X-Signature-256", generateSignature p config.secret⟩,
         ⟨"X-Event-Type", p.event⟩,
         ⟨"X-Timestamp", p.timestamp⟩,
         ⟨"X-Attempt", toString a⟩])
    ∧ (config.headers = hs ++ [(⟨n, v⟩ : Header)] →
        getHeader (buildRequest config p a).headers n = some v)
    ∧ ((∀ hd ∈ config.headers, hd.name ≠ "X-Attempt") →
        ∀ e ∈ (workerProcessJob config job opts oracle k st).trace,
          getHeader e.1.headers "X-Attempt" = some (toString job.attempt)) := by
  refine ⟨?_, ?_, ?_⟩
  · intro h
    unfold buildRequest
    rw [h]
    rfl
  · intro h
    unfold buildRequest
    rw [h]
    exact getHeader_applyHeaders_last hs _ n v
  · intro h e he
    rw [workerProcessJob_trace_request config job opts oracle k st e he]
    unfold buildRequest
    rw [getHeader_applyHeaders_ne config.headers _ "X-Attempt" h]
    rfl

/-- Witness for C7 (amended), default-headers part at the demo config. -/
theorem c7_headers_witness :
    (buildRequest demoConfig demoPayload 1).headers =
      [⟨"Content-Type", "application/json"⟩,
       ⟨"User-Agent", "BusinessCardExtractor/1.0"⟩,
       ⟨"X-Signature-256", generateSignature demoPayload demoConfig.secret⟩,
       ⟨"X-Event-Type", demoPayload.event⟩,
       ⟨"X-Timestamp", demoPayload.timestamp⟩,
       ⟨"X-Attempt", toString 1⟩] :=
  (c7_headers demoConfig demoPayload 1 demoJob demoOpts [] 0 demoStats [] "X" "Y").1 rfl

/-- C8 counterexample: `verifySignature` does not return a boolean for every
candidate — a candidate shorter than the expected `sha256=<64 hex>` string
makes the constant-time comparison throw instead of returning `false`. -/
theorem c8_counterexample :
    verifySignature demoPayload "sha256=deadbeef" "ssssssssssssssss"
      = Except.error "Input buffers must have the same byte length" := by
  unfold verifySignature timingSafeEqual
  rw [if_neg (by rw [generateSignature_utf8_length]; decide)]

/-- C8 (amended): `generateSignature` is a pure deterministic HMAC-SHA256 over
the exact byte serialization of the transmitted body (the signed bytes equal
the request body bytes), and `verifySignature` compares candidate and expected
signature with Node's constant-time `timingSafeEqual` primitive, returning a
boolean only for candidates of the expected byte length (signing then
verifying the same payload yields `ok true`). -/
theorem c8_signature_contract (p : Payload) (secret : String) (config : WebhookConfig) (a : Nat)
    (h : ∀ hd ∈ config.headers, hd.name ≠ "X-Signature-256") :
    verifySignature p (generateSignature p secret) secret = Except.ok true
    ∧ getHeader (buildRequest config p a).headers "X-Signature-256"
        = some ("sha256=" ++ bytesToHexString
            (hmacSha256 (utf8Encode config.secret) (utf8Encode (buildRequest config p a).body))) := by
  constructor
  · unfold verifySignature timingSafeEqual
    rw [if_pos rfl]
    simp
  · unfold buildRequest
    rw [getHeader_applyHeaders_ne config.headers _ "X-Signature-256" h]
    rfl

/-- Witness for C8 (amended): sign-then-verify round-trip at the demo
payload. -/
theorem c8_signature_contract_witness :
    verifySignature demoPayload (generateSignature demoPayload "ssssssssssssssss") "ssssssssssssssss"
      = Except.ok true :=
  (c8_signature_contract demoPayload "ssssssssssssssss" demoConfig 1 (by decide)).1

/-- C9: a `PUT /webhook` body that sets `retryConfig.maxRetries` to 0 stores
the default 3 (the falsy 0 is replaced by `|| 3`), and no request body at all
can make the stored `maxRetries` equal 0. -/
theorem c9_zero_maxRetries_impossible (body : RetryConfigBody) :
    (putWebhookRetryConfig { body with maxRetries := some 0 }).maxRetries = 3
    ∧ (putWebhookRetryConfig body).maxRetries ≠ 0 := by
  constructor
  · rfl
  · unfold putWebhookRetryConfig jsOrNat
    cases body.maxRetries with
    | none => simp
    | some n =>
      by_cases hn : n = 0 <;> simp [hn]

/-- C10: `verifySignature` returns a boolean exactly when the candidate
signature has the same UTF-8 byte length as the expected
`sha256=` + 64-hex-character signature (7 + 64 = 71 bytes); every other
length throws the `timingSafeEqual` length error instead of returning
`false`. -/
theorem c10_verify_length_guard (p : Payload) (sig secret : String) :
    ((∃ b, verifySignature p sig secret = Except.ok b) ↔ (utf8Encode sig).length = 7 + 64)
    ∧ ((utf8Encode sig).length ≠ 7 + 64 →
        verifySignature p sig secret = Except.error "Input buffers must have the same byte length") := by
  have hlen := generateSignature_utf8_length p secret
  constructor
  · constructor
    · rintro ⟨b, hb⟩
      unfold verifySignature timingSafeEqual at hb
      by_cases hc : (utf8Encode sig).length = (utf8Encode (generateSignature p secret)).length
      · rw [hlen] at hc; exact hc
      · rw [if_neg hc] at hb; cases hb
    · intro hc
      unfold verifySignature timingSafeEqual
      rw [if_pos (by rw [hlen]; exact hc)]
      exact ⟨_, rfl⟩
  · intro hc
    unfold verifySignature timingSafeEqual
    rw [if_neg (by rw [hlen]; exact hc)]

/-- Witness for C10: a 3-byte candidate throws the length error. -/
theorem c10_verify_length_guard_witness :
    verifySignature demoPayload "abc" "ssssssssssssssss"
      = Except.error "Input buffers must have the same byte length" :=
  (c10_verify_length_guard demoPayload "abc" "ssssssssssssssss").2 (by decide)

end Webhook
